import Mathlib

/-!
Verification of the scan-to-check-in workflow of the MTTF-loyalty frontend
(`app/frontend/static/scan.js`, with the global `AppState` object from the
application bootstrap script).

The JavaScript is shallowly embedded as pure Lean functions:

* `setCookie` / `getCookie` (scan.js lines 1-17) become functions over the
  `document.cookie` string.  JavaScript `String.prototype.trim`, `startsWith`,
  `substring` and `split` are modelled character-list-wise by `jsTrim`,
  `strStartsWith`, `jsSubstring` and `splitChar`.
* `initializeCamera` (scan.js lines 20-75) and `handleScan` (lines 78-119) are
  callback-chained asynchronous code; each is embedded as a function from the
  outcomes of its suspension points (script load, `Html5Qrcode.getCameras`,
  `stop()`, the two `$.ajax` calls) to the list of observable `Event`s it
  performs, in the order the event loop performs them, together with the
  updated `AppState`.
-/

/-- Model of JavaScript `pre.length ≤ s.length` prefix test `s.startsWith(pre)`
on character lists (second argument is the pattern). -/
def strStartsWith : List Char → List Char → Bool
  | _, [] => true
  | [], _ :: _ => false
  | c :: s, d :: pre => (c = d) && strStartsWith s pre

/-- Substring occurrence test, used to state that the check-in confirmation
message does or does not contain a given text. -/
def strContains : List Char → List Char → Bool
  | [], needle => needle.isEmpty
  | c :: s, needle => strStartsWith (c :: s) needle || strContains s needle

/-- Model of JavaScript `str.split(sep)` for a one-character separator:
splits into the (possibly empty) chunks between occurrences of `sep`;
the empty string yields `[[]]`, as in JavaScript. -/
def splitChar (sep : Char) : List Char → List (List Char)
  | [] => [[]]
  | c :: cs =>
    if c = sep then [] :: splitChar sep cs
    else
      match splitChar sep cs with
      | [] => [[c]]
      | p :: ps => (c :: p) :: ps

/-- Model of JavaScript `str.trim()`: drop whitespace from both ends
(the JavaScript whitespace set is approximated by `Char.isWhitespace`). -/
def jsTrim (s : String) : String :=
  String.mk (((s.toList.dropWhile Char.isWhitespace).reverse.dropWhile
      Char.isWhitespace).reverse)

/-- Model of JavaScript `str.substring(n)`: the characters from index `n` on. -/
def jsSubstring (s : String) (n : Nat) : String :=
  String.mk (s.toList.drop n)

/-- Embedding of scan.js `setCookie(name, value, days)` (lines 1-5).  The
function's observable result is the string it assigns to `document.cookie`.
`expiresUTC` stands for `d.toUTCString()` where `d` is now plus
`days * 24*60*60*1000` milliseconds; its text depends on the wall clock, so it
is taken as a parameter (it sits after the second `;` and is irrelevant to
`getCookie` on the produced string). -/
def setCookie (name value : String) (days : Nat) (expiresUTC : String) : String :=
  let _ := days * 24 * 60 * 60 * 1000
  name ++ "=" ++ value ++ ";expires=" ++ expiresUTC ++ ";path=/"

/-- The body of the `getCookie` loop (scan.js lines 10-15) for one entry of
the split cookie string: trim it, and if it starts with `name=` return the
remainder after that marker. -/
def cookieEntryMatch (name : String) (c0 : String) : Option String :=
  let cookie := jsTrim c0
  if strStartsWith cookie.toList (name ++ "=").toList then
    some (jsSubstring cookie (name.length + 1))
  else none

/-- Embedding of scan.js `getCookie(name)` (lines 8-17), as a function of the
`document.cookie` string: split on `;`, trim each entry, return the remainder
of the first entry starting with `name=`, else `null` (here `none`). -/
def getCookie (name : String) (documentCookie : String) : Option String :=
  let cookies := (splitChar ';' documentCookie.toList).map String.mk
  cookies.findSome? (cookieEntryMatch name)

/-- The global `AppState` object of the bootstrap script:
`cameraInitialized`, `html5QrcodeScanner` (modelled as whether a scanner
object has been constructed, i.e. the field is non-null) and `deviceId`. -/
structure AppState where
  cameraInitialized : Bool
  html5QrcodeScanner : Bool
  deviceId : Option String
deriving DecidableEq

/-- A camera device as returned by `Html5Qrcode.getCameras()`:
`{ id, label }`, the label possibly absent. -/
structure Device where
  id : String
  label : Option String
deriving DecidableEq

/-- Outcome of dynamically loading the html5-qrcode script
(`script.onload` versus `script.onerror`). -/
inductive ScriptLoad where
  | ok
  | err
deriving DecidableEq

/-- Outcome of the `Html5Qrcode.getCameras()` promise: a device list, or a
rejection carrying the stringified error. -/
inductive CamerasResult where
  | ok (devices : List Device)
  | err (msg : String)
deriving DecidableEq

/-- Observable actions of the scan workflow, in event-loop order. -/
inductive Event where
  /-- The html5-qrcode script element is appended (library load begins). -/
  | loadLibrary
  /-- `Html5Qrcode.getCameras()` is invoked. -/
  | enumerateDevices
  /-- `setCookie(name, ...)` runs, assigning a cookie with this name/value. -/
  | setCookieWrite (name value : String)
  /-- `new Html5Qrcode("qr-reader")` constructs the scanner. -/
  | constructScanner
  /-- `startScan()` is invoked (scanning begins or resumes). -/
  | startScan
  /-- `AppState.html5QrcodeScanner.stop()` is invoked. -/
  | stopScanner
  /-- The `GET accesses/reward_due_qr/{code}` request is issued. -/
  | lookupRequest (code : String)
  /-- The reward-lookup request completed successfully (its success
  callback is entered). -/
  | lookupSuccess
  /-- The reward-lookup request failed (its error callback is entered). -/
  | lookupError
  /-- The `POST accesses/add` request with body `{qr_code: code}` is issued. -/
  | submitRequest (code : String)
  /-- The check-in submission completed successfully. -/
  | submitSuccess
  /-- The check-in submission failed. -/
  | submitError
  /-- `sendRewardMessageToCustomersPage()` emits the reward notification. -/
  | rewardMessage
  /-- `sendMessageToCustomersPage(text)` emits a status message. -/
  | customerMessage (text : String)
  /-- `$('#error-message').text(text).show()` displays an error message. -/
  | showError (text : String)
  /-- `$('#error-message').fadeOut()` clears the error message. -/
  | hideError
  /-- A `setTimeout` delay of `ms` milliseconds elapses. -/
  | delay (ms : Nat)
  /-- `navigateTo(page)` leaves the scan view. -/
  | navigate (page : String)
  /-- `alert(text)` shows a blocking user alert. -/
  | alert (text : String)
deriving DecidableEq

/-- Modelled from the spec: the variable `cameraId` read by the two
`setCookie('selectedCamera', cameraId, 30)` calls (scan.js lines 54 and 59) is
assigned nowhere in the repository's scripts; per the specification's design
notes it is an undefined value, which the template literal inside `setCookie`
stringifies to `"undefined"`.  This is the cookie value those calls persist. -/
def cameraIdValue : String := "undefined"

/-- Embedding of scan.js `initializeCamera` (lines 20-75) as a function of the
current `AppState`, the script-load outcome, the `getCameras` outcome and the
current `document.cookie` string.  Returns the event trace of one call and the
updated state.  Dropdown population and the `getElementById` calls are pure DOM
display and are not recorded as events; `console.log` is likewise omitted.
When devices exist, the saved id (cookie `selectedCamera`) is restored if
truthy and matching an enumerated device, else the first device is chosen;
the subsequent `setCookie('selectedCamera', cameraId, 30)` writes the
stringified undefined `cameraId` (see `cameraIdValue`), after which the
scanner is constructed, `cameraInitialized` is set and scanning starts. -/
def initializeCamera (st : AppState) (script : ScriptLoad)
    (cameras : CamerasResult) (documentCookie : String) :
    List Event × AppState :=
  if !st.cameraInitialized then
    match script with
    | .err =>
      ([.loadLibrary,
        .alert "Failed to load QR scanner library. Please try again later."], st)
    | .ok =>
      match cameras with
      | .err msg =>
        ([.loadLibrary, .enumerateDevices,
          .alert ("Camera initialization error: " ++ msg)], st)
      | .ok devices =>
        match devices with
        | [] =>
          ([.loadLibrary, .enumerateDevices], st)
        | d0 :: rest =>
          let savedCameraId := getCookie "selectedCamera" documentCookie
          let deviceId :=
            match savedCameraId with
            | some s =>
              if (s != "") && (d0 :: rest).any (fun d => d.id == s) then s
              else d0.id
            | none => d0.id
          ([.loadLibrary, .enumerateDevices,
            .setCookieWrite "selectedCamera" cameraIdValue,
            .constructScanner, .startScan],
           { st with
              deviceId := some deviceId
              html5QrcodeScanner := true
              cameraInitialized := true })
  else
    ([.startScan], st)

/-- Embedding of the dropdown `change` listener (scan.js lines 57-60): the
active device becomes the chosen value, and the cookie write again persists
the undefined `cameraId` (see `cameraIdValue`), not the chosen id. -/
def cameraDropdownChange (st : AppState) (newValue : String) :
    List Event × AppState :=
  ([.setCookieWrite "selectedCamera" cameraIdValue],
   { st with deviceId := some newValue })

/-- A user-visible blocking alert. -/
def isUserAlert : Event → Bool
  | .alert _ => true
  | _ => false

/-- The parsed JSON body of a failed response (`xhr.responseJSON`), which may
or may not carry a `details` field. -/
structure ErrorBody where
  details : Option String
deriving DecidableEq

/-- The pieces of a failed `$.ajax` response the error callbacks read:
`responseJSON` (absent when the body is not JSON) and `responseText`. -/
structure XhrError where
  responseJSON : Option ErrorBody
  responseText : String
deriving DecidableEq

/-- The customer object of a successful `POST accesses/add` response. -/
structure Customer where
  name : String
  last_name : String
deriving DecidableEq

/-- Outcome of `AppState.html5QrcodeScanner.stop()`: fulfilled, or rejected
with a stringified error. -/
inductive StopResult where
  | ok
  | err (msg : String)
deriving DecidableEq

/-- Outcome of the `GET accesses/reward_due_qr/{code}` call: the `reward_due`
flag of the JSON response, or the failure data. -/
inductive LookupResult where
  | ok (reward_due : Bool)
  | err (xhr : XhrError)
deriving DecidableEq

/-- Outcome of the `POST accesses/add` call: the returned customer, or the
failure data. -/
inductive SubmitResult where
  | ok (customer : Customer)
  | err (xhr : XhrError)
deriving DecidableEq

/-- Model of the JavaScript truthiness fallback `a || b` for an optional
string `a`: `undefined` and the empty string fall through to `b`. -/
def jsOrString (a : Option String) (b : String) : String :=
  match a with
  | some s => if s = "" then b else s
  | none => b

/-- The error-message computation of both error callbacks (scan.js lines 98
and 109): `xhr.responseJSON?.details || xhr.responseText || "Errore generico"`. -/
def errorMessage (xhr : XhrError) : String :=
  jsOrString (xhr.responseJSON.bind ErrorBody.details)
    (jsOrString (some xhr.responseText) "Errore generico")

/-- The check-in confirmation text of scan.js line 93.  The source template
literal is malformed: it reads
  `$Check in di {responseAdd.customer.name} ${responseAdd.customer.last_name} riuscito!`
so only `last_name` is interpolated; `$Check in di \x7bresponseAdd.customer.name\x7d `
is literal text (braces written here as escapes). -/
def checkInMessage (c : Customer) : String :=
  "$Check in di \x7bresponseAdd.customer.name\x7d " ++ c.last_name ++ " riuscito!"

/-- Embedding of scan.js `handleScan(decodedText)` (lines 78-119) as a
function of the decoded text and the outcomes of its three suspension points.
Returns the event trace of one decode-triggered pipeline run, in the order the
event loop performs the actions.  `console.log` is omitted. -/
def handleScan (decodedText : String) (stop : StopResult)
    (lookup : LookupResult) (submit : SubmitResult) : List Event :=
  match stop with
  | .err msg =>
    [.stopScanner, .alert ("Failed to stop scanner: " ++ msg)]
  | .ok =>
    [.stopScanner, .lookupRequest decodedText] ++
    match lookup with
    | .err xhr =>
      [.lookupError, .showError (errorMessage xhr), .delay 1000,
       .hideError, .startScan]
    | .ok reward_due =>
      [.lookupSuccess, .submitRequest decodedText] ++
      match submit with
      | .err xhr =>
        [.submitError, .showError (errorMessage xhr), .delay 1000,
         .hideError, .startScan]
      | .ok customer =>
        [.submitSuccess] ++
        (if reward_due then [.rewardMessage] else []) ++
        [.customerMessage (checkInMessage customer), .navigate "customers"]

/-! ### Helper lemmas -/

theorem toList_append (a b : String) : (a ++ b).toList = a.toList ++ b.toList :=
  String.data_append a b

theorem mem_prefix_three {a b g x : Event} {rest p r : List Event}
    (hpr : p ++ r = a :: b :: g :: rest) (hx : x ∈ p)
    (h1 : x ≠ a) (h2 : x ≠ b) : g ∈ p := by
  rcases p with - | ⟨p1, p⟩
  · cases hx
  · simp only [List.cons_append] at hpr
    injection hpr with hpa hpr
    subst hpa
    rcases p with - | ⟨p2, p⟩
    · simp only [List.mem_singleton] at hx
      exact absurd hx h1
    · simp only [List.cons_append] at hpr
      injection hpr with hpb hpr
      subst hpb
      rcases p with - | ⟨p3, p⟩
      · simp only [List.mem_cons, List.not_mem_nil, or_false] at hx
        rcases hx with hx | hx
        · exact absurd hx h1
        · exact absurd hx h2
      · simp only [List.cons_append] at hpr
        injection hpr with hpg hpr
        subst hpg
        simp

theorem splitChar_append (xs ys : List Char) (h : ';' ∉ xs) :
    splitChar ';' (xs ++ ';' :: ys) = xs :: splitChar ';' ys := by
  induction xs with
  | nil => simp [splitChar]
  | cons c cs ih =>
    have hc : ¬(c = ';') := fun e => h (by simp [e])
    have h' : ';' ∉ cs := fun hm => h (List.mem_cons_of_mem _ hm)
    simp only [List.cons_append, splitChar, if_neg hc, List.append_eq, ih h']

theorem dropWhile_head_eq (p : Char → Bool) (l : List Char)
    (h : ∀ c, l.head? = some c → p c = false) : l.dropWhile p = l := by
  cases l with
  | nil => rfl
  | cons a t =>
    rw [List.dropWhile_cons, h a rfl]
    simp

theorem headNotWs (xs : List Char) (y : Char) (ys : List Char)
    (hxs : ∀ c, xs.head? = some c → c.isWhitespace = false)
    (hy : y.isWhitespace = false) :
    ∀ c, (xs ++ y :: ys).head? = some c → c.isWhitespace = false := by
  intro c hc
  cases xs with
  | nil =>
    simp only [List.nil_append, List.head?_cons, Option.some.injEq] at hc
    exact hc ▸ hy
  | cons a t =>
    simp only [List.cons_append, List.head?_cons, Option.some.injEq] at hc
    exact hc ▸ hxs a rfl

theorem jsTrim_eq_self (l : List Char)
    (h1 : ∀ c, l.head? = some c → c.isWhitespace = false)
    (h2 : ∀ c, l.reverse.head? = some c → c.isWhitespace = false) :
    jsTrim (String.mk l) = String.mk l := by
  unfold jsTrim
  have t1 : (String.mk l).toList = l := rfl
  rw [t1, dropWhile_head_eq _ _ h1, dropWhile_head_eq _ _ h2, List.reverse_reverse]

theorem strStartsWith_nil (l : List Char) : strStartsWith l [] = true := by
  cases l <;> rfl

theorem strStartsWith_append (xs ys : List Char) :
    strStartsWith (xs ++ ys) xs = true := by
  induction xs with
  | nil => exact strStartsWith_nil ys
  | cons c cs ih => simp [strStartsWith, ih]

theorem findSome?_eq_none_of {α β : Type} (f : α → Option β) (l : List α)
    (h : ∀ a ∈ l, f a = none) : l.findSome? f = none := by
  induction l with
  | nil => rfl
  | cons a t ih =>
    rw [List.findSome?_cons, h a (List.mem_cons_self a t)]
    exact ih fun b hb => h b (List.mem_cons_of_mem a hb)

/-! ### Claim theorems -/

/-- C1: the claim says `initialize()` persists the actually resolved active
device id under cookie key `selectedCamera` (for devices `[cam1, cam2]` and no
prior cookie, the cookie value would become `"cam1"`), and that a user device
change persists the newly chosen id.  The code instead passes the undefined
global `cameraId` to `setCookie` at both sites, so the value written is the
stringified `"undefined"`, never the resolved id: with no persisted cookie and
devices `cam1, cam2`, the resolved active device is `cam1`, yet the cookie is
written as `selectedCamera=undefined`; the dropdown change handler likewise
writes `undefined` while switching the active device. -/
theorem initializeCamera_persists_undefined :
    (initializeCamera ⟨false, false, none⟩ .ok
        (.ok [⟨"cam1", none⟩, ⟨"cam2", none⟩]) "").1 =
      [.loadLibrary, .enumerateDevices,
       .setCookieWrite "selectedCamera" "undefined",
       .constructScanner, .startScan]
    ∧ (initializeCamera ⟨false, false, none⟩ .ok
        (.ok [⟨"cam1", none⟩, ⟨"cam2", none⟩]) "").2.deviceId = some "cam1"
    ∧ Event.setCookieWrite "selectedCamera" "cam1" ∉
        (initializeCamera ⟨false, false, none⟩ .ok
          (.ok [⟨"cam1", none⟩, ⟨"cam2", none⟩]) "").1
    ∧ (cameraDropdownChange ⟨true, true, some "cam1"⟩ "cam2").1 =
        [.setCookieWrite "selectedCamera" "undefined"]
    ∧ (cameraDropdownChange ⟨true, true, some "cam1"⟩ "cam2").2.deviceId =
        some "cam2" := by
  refine ⟨by decide, by decide, by decide, rfl, rfl⟩

/-- C2: for every decode-triggered pipeline run, the check-in submission
request (`POST accesses/add`) is only issued after the reward-lookup request
has completed successfully (in every decomposition of the trace, a prefix
containing the submission request already contains the lookup-success event),
and when the lookup fails no submission request occurs at all. -/
theorem handleScan_submit_after_lookup (code : String) (stop : StopResult)
    (lookup : LookupResult) (submit : SubmitResult) :
    (∀ xhr, lookup = .err xhr →
      ∀ c, Event.submitRequest c ∉ handleScan code stop lookup submit)
    ∧ (∀ c p r, p ++ r = handleScan code stop lookup submit →
        Event.submitRequest c ∈ p → Event.lookupSuccess ∈ p) := by
  constructor
  · intro xhr hl c hmem
    cases stop with
    | err m => simp [handleScan] at hmem
    | ok => subst hl; simp [handleScan] at hmem
  · intro c p r hpr hmem
    cases stop with
    | err m =>
      have hm : Event.submitRequest c ∈ handleScan code (.err m) lookup submit := by
        rw [← hpr]; exact List.mem_append_left r hmem
      simp [handleScan] at hm
    | ok =>
      cases lookup with
      | err xhr =>
        have hm : Event.submitRequest c ∈ handleScan code .ok (.err xhr) submit := by
          rw [← hpr]; exact List.mem_append_left r hmem
        simp [handleScan] at hm
      | ok rd =>
        simp only [handleScan, List.cons_append, List.nil_append] at hpr
        exact mem_prefix_three hpr hmem (by simp) (by simp)

/-- C2 witness: a failing lookup for decode "ABC" issues no submission. -/
theorem handleScan_submit_after_lookup_witness :
    Event.submitRequest "QQQ" ∉
      handleScan "ABC" .ok (.err ⟨none, ""⟩) (.ok ⟨"A", "B"⟩) :=
  (handleScan_submit_after_lookup "ABC" .ok (.err ⟨none, ""⟩) (.ok ⟨"A", "B"⟩)).1
    ⟨none, ""⟩ rfl "QQQ"

/-- C4: on lookup failure or submission failure the pipeline shows the error
message, then after a fixed 1000 ms delay clears it and restarts scanning
(`startScan` is invoked again), with no navigation away from the scan view and
no retry: the whole trace of each failing run is exactly the stop, the
issued requests, the failure, the message display, the 1000 ms delay, the
message clear and the restart. -/
theorem handleScan_failure_recovery (code : String) (xhr xhr2 : XhrError)
    (rd : Bool) (submit : SubmitResult) :
    handleScan code .ok (.err xhr) submit =
      [.stopScanner, .lookupRequest code, .lookupError,
       .showError (errorMessage xhr), .delay 1000, .hideError, .startScan]
    ∧ (∀ pg, Event.navigate pg ∉ handleScan code .ok (.err xhr) submit)
    ∧ handleScan code .ok (.ok rd) (.err xhr2) =
      [.stopScanner, .lookupRequest code, .lookupSuccess, .submitRequest code,
       .submitError, .showError (errorMessage xhr2), .delay 1000, .hideError,
       .startScan]
    ∧ (∀ pg, Event.navigate pg ∉ handleScan code .ok (.ok rd) (.err xhr2)) := by
  refine ⟨rfl, ?_, rfl, ?_⟩ <;> intro pg <;> simp [handleScan]

/-- C4 witness: the concrete failing-lookup scenario for decode "XYZ" with
body `details = "not found"` displays "not found", waits 1000 ms, clears the
message and restarts scanning. -/
theorem handleScan_failure_recovery_witness :
    handleScan "XYZ" .ok (.err ⟨some ⟨some "not found"⟩, ""⟩) (.ok ⟨"A", "B"⟩) =
      [.stopScanner, .lookupRequest "XYZ", .lookupError, .showError "not found",
       .delay 1000, .hideError, .startScan] :=
  ((handleScan_failure_recovery "XYZ" ⟨some ⟨some "not found"⟩, ""⟩ ⟨none, ""⟩
      false (.ok ⟨"A", "B"⟩)).1).trans (by decide)

/-- C5: the claim says the confirmation message is built from the returned
customer's first and last name and, for customer Mario Rossi, contains
"Mario Rossi".  The source template literal on scan.js line 93 is malformed
(`$Check in di ...` instead of an interpolation), so only the last name is
interpolated: the emitted message for Mario Rossi is
`$Check in di \x7bresponseAdd.customer.name\x7d Rossi riuscito!`, which does
not contain "Mario Rossi" (nor "Mario" at all).  The rest of the claim holds
on this run: no reward notification when `reward_due` is false, and the
message is emitted before navigation to the customer list. -/
theorem handleScan_checkin_message_bug :
    handleScan "ABC123" .ok (.ok false) (.ok ⟨"Mario", "Rossi"⟩) =
      [.stopScanner, .lookupRequest "ABC123", .lookupSuccess,
       .submitRequest "ABC123", .submitSuccess,
       .customerMessage (checkInMessage ⟨"Mario", "Rossi"⟩),
       .navigate "customers"]
    ∧ checkInMessage ⟨"Mario", "Rossi"⟩ =
        "$Check in di \x7bresponseAdd.customer.name\x7d Rossi riuscito!"
    ∧ strContains (checkInMessage ⟨"Mario", "Rossi"⟩).toList
        "Mario Rossi".toList = false
    ∧ strContains (checkInMessage ⟨"Mario", "Rossi"⟩).toList
        "Rossi".toList = true
    ∧ Event.rewardMessage ∉
        handleScan "ABC123" .ok (.ok false) (.ok ⟨"Mario", "Rossi"⟩) := by
  refine ⟨rfl, rfl, by decide, by decide, by decide⟩

/-- C8: when stopping the camera session fails, the pipeline is aborted with
the stop failure reported through an alert, and neither the reward-lookup
request nor the submission request is issued for that decode. -/
theorem handleScan_stopFailure_aborts (code msg : String)
    (lookup : LookupResult) (submit : SubmitResult) :
    handleScan code (.err msg) lookup submit =
      [.stopScanner, .alert ("Failed to stop scanner: " ++ msg)]
    ∧ (∀ c, Event.lookupRequest c ∉ handleScan code (.err msg) lookup submit)
    ∧ (∀ c, Event.submitRequest c ∉ handleScan code (.err msg) lookup submit) := by
  refine ⟨rfl, ?_, ?_⟩ <;> intro c <;> simp [handleScan]

/-- C8 witness: a concrete failing stop for decode "A" aborts with the alert. -/
theorem handleScan_stopFailure_aborts_witness :
    handleScan "A" (.err "boom") (.ok true) (.ok ⟨"x", "y"⟩) =
      [.stopScanner, .alert "Failed to stop scanner: boom"] :=
  (handleScan_stopFailure_aborts "A" "boom" (.ok true) (.ok ⟨"x", "y"⟩)).1

/-- C9: calling `initializeCamera` when the session is already initialized
(`AppState.cameraInitialized` is true) performs no library load, no device
enumeration and no scanner construction: the whole call is exactly one
`startScan`, and the state is unchanged. -/
theorem initializeCamera_already_initialized (st : AppState)
    (script : ScriptLoad) (cameras : CamerasResult) (documentCookie : String)
    (h : st.cameraInitialized = true) :
    initializeCamera st script cameras documentCookie = ([.startScan], st)
    ∧ Event.loadLibrary ∉ (initializeCamera st script cameras documentCookie).1
    ∧ Event.enumerateDevices ∉
        (initializeCamera st script cameras documentCookie).1
    ∧ Event.constructScanner ∉
        (initializeCamera st script cameras documentCookie).1 := by
  have e : initializeCamera st script cameras documentCookie = ([.startScan], st) := by
    simp [initializeCamera, h]
  refine ⟨e, ?_, ?_, ?_⟩ <;> simp [e]

/-- C9 witness: a second call on an initialized state only starts the scan. -/
theorem initializeCamera_already_initialized_witness :
    initializeCamera ⟨true, true, some "cam1"⟩ .ok (.ok []) "" =
      ([Event.startScan], ⟨true, true, some "cam1"⟩) :=
  (initializeCamera_already_initialized ⟨true, true, some "cam1"⟩ .ok (.ok [])
    "" rfl).1

/-- C3 counterexample: the claim as stated fails for an empty persisted id.
With cookie string `selectedCamera=` the persisted id is the empty string, and
it matches the enumerated device with id `""`; the claim then requires the
active device id to become `""`, but the JavaScript truthiness test
`savedCameraId && ...` rejects the empty string, so the code selects the first
device `"x"` instead. -/
theorem initializeCamera_empty_persisted_id_cex :
    getCookie "selectedCamera" "selectedCamera=" = some ""
    ∧ (([⟨"x", none⟩, ⟨"", none⟩] : List Device).any
        (fun d => d.id == "")) = true
    ∧ (initializeCamera ⟨false, false, none⟩ .ok
        (.ok [⟨"x", none⟩, ⟨"", none⟩]) "selectedCamera=").2.deviceId = some "x"
    ∧ (some "x" : Option String) ≠ some "" := by
  refine ⟨by decide, by decide, by decide, by decide⟩

/-- C3 (amended): for every non-empty enumerated device list,
`initializeCamera` sets the active device id to the previously persisted id
when that persisted id is non-empty and matches some enumerated device, and
otherwise (no persisted id, an empty persisted id, or no matching device) to
the first enumerated device's id. -/
theorem initializeCamera_device_resolution (st : AppState) (d0 : Device)
    (rest : List Device) (documentCookie : String)
    (h : st.cameraInitialized = false) :
    (∀ s, getCookie "selectedCamera" documentCookie = some s → s ≠ "" →
      (d0 :: rest).any (fun d => d.id == s) = true →
      (initializeCamera st .ok (.ok (d0 :: rest)) documentCookie).2.deviceId =
        some s)
    ∧ ((∀ s, getCookie "selectedCamera" documentCookie = some s →
          s = "" ∨ (d0 :: rest).any (fun d => d.id == s) = false) →
        (initializeCamera st .ok (.ok (d0 :: rest)) documentCookie).2.deviceId =
          some d0.id) := by
  constructor
  · intro s hs hne hany
    simp [initializeCamera, h, hs, hne, hany]
  · intro hnone
    cases hg : getCookie "selectedCamera" documentCookie with
    | none => simp [initializeCamera, h, hg]
    | some s =>
      rcases hnone s hg with he | hf
      · subst he
        simp [initializeCamera, h, hg]
      · simp [initializeCamera, h, hg, hf]

/-- C3 witness: with persisted cookie `selectedCamera=cam2` and devices
`cam1, cam2`, the active device becomes `cam2`. -/
theorem initializeCamera_device_resolution_witness :
    (initializeCamera ⟨false, false, none⟩ .ok
      (.ok [⟨"cam1", none⟩, ⟨"cam2", none⟩]) "selectedCamera=cam2").2.deviceId =
      some "cam2" :=
  (initializeCamera_device_resolution ⟨false, false, none⟩ ⟨"cam1", none⟩
    [⟨"cam2", none⟩] "selectedCamera=cam2" rfl).1 "cam2" (by decide) (by decide)
    (by decide)

/-- C6 counterexample: the claim says an empty enumerated device list makes
`initialize()` fail with an alert-equivalent user-visible message.  At the
concrete input (fresh state, script loads, `getCameras` resolves with `[]`)
the trace contains no alert at all — the empty-list case falls through the
`if (devices && devices.length)` guard with no else branch — and scanning does
not start either; the failure is silently swallowed. -/
theorem initializeCamera_empty_devices_no_alert_cex :
    (initializeCamera ⟨false, false, none⟩ .ok (.ok []) "").1 =
      [Event.loadLibrary, Event.enumerateDevices]
    ∧ (initializeCamera ⟨false, false, none⟩ .ok (.ok []) "").1.all
        (fun e => !isUserAlert e) = true
    ∧ Event.startScan ∉ (initializeCamera ⟨false, false, none⟩ .ok (.ok []) "").1
    ∧ (initializeCamera ⟨false, false, none⟩ .ok (.ok []) "").2 =
        ⟨false, false, none⟩ := by
  refine ⟨rfl, rfl, by decide, rfl⟩

/-- C6 (amended): when device enumeration resolves with an empty device list,
`initializeCamera` emits no user-visible message and does not proceed: the
trace is exactly the library load and the enumeration, and the state is
unchanged (no scanner construction, no scan start).  An alert is shown only
when enumeration itself rejects, not for an empty resolved list. -/
theorem initializeCamera_empty_devices (st : AppState) (documentCookie : String)
    (h : st.cameraInitialized = false) :
    initializeCamera st .ok (.ok []) documentCookie =
      ([Event.loadLibrary, Event.enumerateDevices], st) := by
  simp [initializeCamera, h]

/-- C6 witness: the amended behaviour at a concrete fresh state. -/
theorem initializeCamera_empty_devices_witness :
    initializeCamera ⟨false, false, some "old"⟩ .ok (.ok []) "x=y" =
      ([Event.loadLibrary, Event.enumerateDevices], ⟨false, false, some "old"⟩) :=
  initializeCamera_empty_devices ⟨false, false, some "old"⟩ "x=y" rfl

/-- C7 counterexample: the claim says a present `responseJSON.details` field
always takes precedence.  For the failed response with body
`{details: ""}` and raw text `"raw body"`, `details` is present (the empty
string), yet the code's truthiness chain skips it and displays the raw
response body instead. -/
theorem errorMessage_empty_details_cex :
    ((⟨some ⟨some ""⟩, "raw body"⟩ : XhrError).responseJSON.bind
        ErrorBody.details) = some ""
    ∧ errorMessage ⟨some ⟨some ""⟩, "raw body"⟩ = "raw body"
    ∧ ("raw body" : String) ≠ "" := by
  refine ⟨rfl, by decide, by decide⟩

/-- C7 (amended): the displayed error message is chosen by fixed precedence
over JavaScript-truthy sources: the structured `responseJSON.details` field if
present and non-empty, otherwise the raw `responseText` if non-empty,
otherwise the generic fallback `"Errore generico"`; in particular a failure
with `details = "not found"` yields exactly "not found". -/
theorem errorMessage_precedence :
    (∀ (xhr : XhrError) (d : String),
      xhr.responseJSON.bind ErrorBody.details = some d → d ≠ "" →
      errorMessage xhr = d)
    ∧ (∀ xhr : XhrError,
        (xhr.responseJSON.bind ErrorBody.details = none
          ∨ xhr.responseJSON.bind ErrorBody.details = some "") →
        xhr.responseText ≠ "" → errorMessage xhr = xhr.responseText)
    ∧ (∀ xhr : XhrError,
        (xhr.responseJSON.bind ErrorBody.details = none
          ∨ xhr.responseJSON.bind ErrorBody.details = some "") →
        xhr.responseText = "" → errorMessage xhr = "Errore generico")
    ∧ errorMessage ⟨some ⟨some "not found"⟩, "ignored body"⟩ = "not found" := by
  refine ⟨?_, ?_, ?_, by decide⟩
  · intro xhr d hd hne
    simp [errorMessage, hd, jsOrString, hne]
  · intro xhr hcase hne
    rcases hcase with hc | hc <;> simp [errorMessage, hc, jsOrString, hne]
  · intro xhr hcase he
    rcases hcase with hc | hc <;> simp [errorMessage, hc, jsOrString, he]

/-- C7 witness: a non-empty `details` field wins over a non-empty body. -/
theorem errorMessage_precedence_witness :
    errorMessage ⟨some ⟨some "boom"⟩, "body text"⟩ = "boom" :=
  errorMessage_precedence.1 ⟨some ⟨some "boom"⟩, "body text"⟩ "boom" rfl
    (by decide)

/-- C10 counterexample: the exact round trip fails for a value with trailing
whitespace.  The name `"n"` and the value `"a "` contain neither `;` nor `=`
and the day count is positive, yet `getCookie` trims each split entry before
matching, so the trailing space of the stored value is lost: the round trip
returns `some "a"`, not `some "a "`. -/
theorem getCookie_setCookie_trailing_space_cex :
    getCookie "n" (setCookie "n" "a " 1 "Thu, 01 Jan 2026 00:00:00 GMT") =
      some "a"
    ∧ getCookie "n" (setCookie "n" "a " 1 "Thu, 01 Jan 2026 00:00:00 GMT") ≠
      some "a "
    ∧ ';' ∉ ("a " : String).toList
    ∧ '=' ∉ ("a " : String).toList := by
  refine ⟨by decide, by decide, by decide, by decide⟩

/-- C10 (amended): for every cookie name and value containing no `;` or `=`
characters, where additionally the name does not begin and the value does not
end with whitespace, and a positive day count, `getCookie name` evaluated on
the `document.cookie` string produced by `setCookie name value days` returns
exactly `value`; and `getCookie` returns `none` on any cookie string none of
whose entries starts (after trimming) with `name=`. -/
theorem getCookie_setCookie_roundtrip :
    (∀ (name value : String) (days : Nat) (expiresUTC : String),
      0 < days →
      ';' ∉ name.toList → '=' ∉ name.toList →
      ';' ∉ value.toList → '=' ∉ value.toList →
      name.toList.head?.all (fun c => !c.isWhitespace) = true →
      value.toList.reverse.head?.all (fun c => !c.isWhitespace) = true →
      getCookie name (setCookie name value days expiresUTC) = some value)
    ∧ (∀ (name documentCookie : String),
        (splitChar ';' documentCookie.toList).all
          (fun l => !(strStartsWith (jsTrim (String.mk l)).toList
            (name ++ "=").toList)) = true →
        getCookie name documentCookie = none) := by
  constructor
  · intro name value days expiresUTC _ hn1 _ hv1 _ hnw0 hvw0
    have hnw : ∀ c, name.toList.head? = some c → c.isWhitespace = false := by
      intro c hc
      rw [hc] at hnw0
      simpa using hnw0
    have hvw : ∀ c, value.toList.reverse.head? = some c →
        c.isWhitespace = false := by
      intro c hc
      rw [hc] at hvw0
      simpa using hvw0
    set entry : List Char := name.toList ++ '=' :: value.toList with hentry
    have hsem : ';' ∉ entry := by
      intro hm
      rcases List.mem_append.mp hm with hmn | hmc
      · exact hn1 hmn
      · rcases List.mem_cons.mp hmc with he | hv
        · exact absurd he (by decide)
        · exact hv1 hv
    have l1 : ("=" : String).toList = ['='] := rfl
    have l2 : ((";expires=" : String)).toList =
        ';' :: ("expires=" : String).toList := rfl
    have hlist : (setCookie name value days expiresUTC).toList =
        entry ++ ';' :: ("expires=" ++ expiresUTC ++ ";path=/").toList := by
      simp only [setCookie, toList_append, l1, l2, hentry, List.append_assoc,
        List.cons_append, List.singleton_append, List.nil_append]
    have hassoc : entry = (name.toList ++ ['=']) ++ value.toList := by
      simp [hentry]
    have hhead : ∀ c, entry.head? = some c → c.isWhitespace = false :=
      headNotWs name.toList '=' value.toList hnw (by decide)
    have hrevshape : entry.reverse =
        value.toList.reverse ++ '=' :: name.toList.reverse := by
      simp [hentry, List.reverse_append]
    have hrev : ∀ c, entry.reverse.head? = some c → c.isWhitespace = false := by
      rw [hrevshape]
      exact headNotWs value.toList.reverse '=' name.toList.reverse hvw (by decide)
    have htrim : jsTrim (String.mk entry) = String.mk entry :=
      jsTrim_eq_self entry hhead hrev
    have hpat : (name ++ "=").toList = name.toList ++ ['='] := by
      rw [toList_append, l1]
    have hcond : strStartsWith (jsTrim (String.mk entry)).toList
        (name ++ "=").toList = true := by
      rw [htrim]
      show strStartsWith entry (name ++ "=").toList = true
      rw [hpat, hassoc]
      exact strStartsWith_append _ _
    have hlen : name.length + 1 = (name.toList ++ ['=']).length := by
      rw [List.length_append]
      rfl
    have hval : jsSubstring (jsTrim (String.mk entry)) (name.length + 1) =
        value := by
      rw [htrim]
      show String.mk (entry.drop (name.length + 1)) = value
      rw [hassoc, hlen, List.drop_left]
      rfl
    have hf : cookieEntryMatch name (String.mk entry) = some value := by
      show (if strStartsWith (jsTrim (String.mk entry)).toList
            (name ++ "=").toList
          then some (jsSubstring (jsTrim (String.mk entry)) (name.length + 1))
          else none) = some value
      rw [hcond, hval]
      rfl
    unfold getCookie
    rw [hlist, splitChar_append _ _ hsem, List.map_cons, List.findSome?_cons, hf]
  · intro name documentCookie h
    unfold getCookie
    apply findSome?_eq_none_of
    intro a ha
    rcases List.mem_map.mp ha with ⟨l, hl, rfl⟩
    have hfail := List.all_eq_true.mp h l hl
    simp only [Bool.not_eq_true'] at hfail
    show (if strStartsWith (jsTrim (String.mk l)).toList (name ++ "=").toList
        then some (jsSubstring (jsTrim (String.mk l)) (name.length + 1))
        else none) = none
    rw [hfail]
    rfl

/-- C10 witness: a concrete round trip, and `getCookie` on an empty cookie
string. -/
theorem getCookie_setCookie_roundtrip_witness :
    getCookie "user" (setCookie "user" "abc" 30 "Fri, 10 Nov 2028 00:00:00 GMT")
      = some "abc"
    ∧ getCookie "user" "" = none := by
  constructor
  · exact getCookie_setCookie_roundtrip.1 "user" "abc" 30
      "Fri, 10 Nov 2028 00:00:00 GMT" (by decide) (by decide) (by decide)
      (by decide) (by decide) (by decide) (by decide)
  · exact getCookie_setCookie_roundtrip.2 "user" "" (by decide)
